import Mathlib

/-!
Shallow embedding of the relay engine in `src/serve.rs` (gngpp/deepl):
the auth gate (`verify_api_key`), request synthesis (`get_random_number`,
`get_i_count`, `get_timestamp`, the `"method"` formatting variance),
the outbound client pool (`Client::new`, `Client::next`), the upstream
result classification and the defensive response extractor inside
`translate`.  Machine integers are modelled as `Nat` with explicit
`% 2^32` where the `u32` pool cursor can wrap; fallible code returns
`Except`/`Option`.
-/

namespace DeeplServe

/-! ### Auth gate: `verify_api_key` (serve.rs lines 244-258) -/

/-- The caller-visible error taxonomy used by the handler: `actix_web`
error constructors used in `translate`/`verify_api_key`. -/
inductive HandlerError where
  | unauthorized
  | tooManyRequests
  | internalStatus (status : Nat)
  | badGateway
  deriving DecidableEq, Repr

/-- Embedding of `verify_api_key`: the `if let (Some(auth), Some(ref api_key))`
pattern only takes the error branch when BOTH the bearer token and the
configured key are present and the token differs from the key; in every
other case (including an absent token with a configured key) it falls
through to `Ok(())`. -/
def verify_api_key (auth : Option String) (apiKey : Option String) :
    Except HandlerError Unit :=
  match auth, apiKey with
  | some a, some k => if a ≠ k then .error .unauthorized else .ok ()
  | _, _ => .ok ()

/-! ### Request synthesis: id, i-count, timestamp (serve.rs lines 263-288) -/

/-- The set of values `rand::thread_rng().gen_range(0..99999)` can return:
the Rust range `0..99999` is half-open, so the draw is in `[0, 99998]`. -/
def possibleDraw (r : Nat) : Prop := r < 99999

/-- Embedding of `get_random_number` as a function of the raw draw `r`:
`(r + 8_300_000) * 1000` (the `u64` arithmetic cannot overflow for any
possible draw, so plain `Nat` is exact). -/
def get_random_number (r : Nat) : Nat := (r + 8300000) * 1000

/-- The payload id computed in `translate`: `get_random_number() + 1`. -/
def payloadId (r : Nat) : Nat := get_random_number r + 1

/-- Embedding of `get_i_count`: `translate_text.matches('i').count()`
counts the occurrences of the lowercase character `i`. -/
def get_i_count (translate_text : String) : Nat :=
  (translate_text.toList.filter (fun c => c = 'i')).length

/-- Embedding of the arithmetic of `get_timestamp` on an already obtained
clock reading `nowMs` (`u128` milliseconds since epoch, exact in `Nat`;
`in_ms - (in_ms % i_count)` never underflows).  The `%` by `i_count`
is only evaluated in the `i_count ≠ 0` branch, exactly as in the source. -/
def get_timestamp (i_count : Nat) (nowMs : Nat) : Nat :=
  if i_count = 0 then nowMs
  else nowMs - nowMs % i_count + i_count

/-- Embedding of `get_timestamp` including its fallible clock step:
`SystemTime::now().duration_since(UNIX_EPOCH)` fails exactly when the
clock reads a time before the Unix epoch (a negative `clockMs`). -/
def get_timestamp_checked (i_count : Nat) (clockMs : Int) : Except Unit Nat :=
  if clockMs < 0 then .error ()
  else .ok (get_timestamp i_count clockMs.toNat)

/-! ### Formatting variance (serve.rs lines 166-172) -/

/-- One rewriting step of Rust `str::replace`, structurally recursive on a
fuel argument (one unit of fuel per consumed character, so fuel equal to
the string length suffices): scan left to right, replace each
non-overlapping occurrence of `pat` by `rep`.  Matches Rust's semantics
for every non-empty pattern (the only kind `translate` uses). -/
def replaceFuel (pat rep : List Char) : Nat → List Char → List Char
  | 0, s => s
  | _ + 1, [] => []
  | fuel + 1, c :: rest =>
    if pat ≠ [] ∧ pat.isPrefixOf (c :: rest) then
      rep ++ replaceFuel pat rep fuel (List.drop (pat.length - 1) rest)
    else
      c :: replaceFuel pat rep fuel rest

/-- Embedding of Rust `body.replace(pat, rep)` for non-empty `pat`. -/
def replaceAll (body pat rep : String) : String :=
  (replaceFuel pat.toList rep.toList body.toList.length body.toList).asString

/-- The literal pattern rewritten in `translate` after serialization. -/
def methodPattern : String := "\"method\":\""

/-- Replacement used when `(id + 5) % 29 == 0 || (id + 3) % 13 == 0`. -/
def methodSpaced : String := "\"method\" : \""

/-- Replacement used otherwise. -/
def methodSpaceAfter : String := "\"method\": \""

/-- Embedding of the post-serialization rewriting in `translate`
(lines 166-172): a byte-level substitution on the serialized string. -/
def formatBody (id : Nat) (body : String) : String :=
  if (id + 5) % 29 = 0 ∨ (id + 3) % 13 = 0 then
    replaceAll body methodPattern methodSpaced
  else
    replaceAll body methodPattern methodSpaceAfter

/-! ### Upstream JSON values and the response extractor
(serve.rs lines 196-227) -/

/-- `serde_json::Value`. Numbers are irrelevant to the extractor, an `Int`
payload keeps the constructor faithful enough for every claim. -/
inductive Json where
  | null
  | bool (b : Bool)
  | num (n : Int)
  | str (s : String)
  | arr (xs : List Json)
  | obj (fields : List (String × Json))

namespace Json

/-- `Value::get(key)`: object field lookup, `None` on non-objects. -/
def jget (j : Json) (key : String) : Option Json :=
  match j with
  | .obj fields => (fields.find? (fun f => f.1 = key)).map Prod.snd
  | _ => none

/-- `Value::as_array()`. -/
def asArr (j : Json) : Option (List Json) :=
  match j with
  | .arr xs => some xs
  | _ => none

/-- `Value::as_str()`. -/
def asStr (j : Json) : Option String :=
  match j with
  | .str s => some s
  | _ => none

end Json

/-- The `texts_zero` navigation in `translate`:
`body.get("result")`, then `.get("texts")`, `as_array()`, element `0`,
every step defaulting to `None`. -/
def textsZero (body : Json) : Option Json :=
  (body.jget "result").bind fun r =>
    ((r.jget "texts").bind Json.asArr).bind fun xs => xs.get? 0

/-- The `alternatives` accumulation in `translate` (lines 204-220):
NOTE this is the code as written — it calls `as_array()` on `texts_zero`
itself and, for each element of THAT array, reads `.alternatives`;
it does not read `texts_zero.get("alternatives")` directly. -/
def extractAlternatives (tz : Option Json) : List String :=
  match tz.bind Json.asArr with
  | none => []
  | some vs =>
    vs.foldl (fun acc v =>
      match (v.jget "alternatives").bind Json.asArr with
      | none => acc
      | some alts =>
        alts.foldl (fun acc2 a =>
          match (a.jget "text").bind Json.asStr with
          | none => acc2
          | some s => acc2 ++ [s]) acc) []

/-- The `data` extraction in `translate` (lines 222-227):
`texts_zero.get("text").as_str().unwrap_or_default()`. -/
def extractData (tz : Option Json) : String :=
  ((tz.bind fun v => v.jget "text").bind Json.asStr).getD ""

/-- The whole response-extraction step of `translate`: a total function —
no error path exists between the top-level JSON parse and the flat
response. -/
def extract (body : Json) : String × List String :=
  (extractData (textsZero body), extractAlternatives (textsZero body))

/-! ### Upstream result classification (serve.rs lines 174-194) -/

/-- Outcome of `client.post(...).send().await` followed by body handling:
either a transport failure, or a response with an HTTP status code and a
body that either parses as JSON (`some`) or does not (`none`). -/
inductive UpstreamOutcome where
  | netFail
  | response (status : Nat) (parsedBody : Option Json)

/-- Embedding of the classification in `translate`: transport failure →
`ErrorBadGateway`; status 429 → `ErrorTooManyRequests` (checked before
`error_for_status`, so the body is never consulted); then
`error_for_status`, which errors exactly on client/server statuses
`400..=599` → `ErrorInternalServerError`; otherwise `.json::<Value>()`,
whose parse failure → `ErrorBadGateway`. -/
def classifyUpstream : UpstreamOutcome → Except HandlerError Json
  | .netFail => .error .badGateway
  | .response status parsedBody =>
    if status = 429 then .error .tooManyRequests
    else if 400 ≤ status ∧ status ≤ 599 then .error (.internalStatus status)
    else
      match parsedBody with
      | none => .error .badGateway
      | some j => .ok j

/-! ### Outbound client pool (serve.rs lines 299-373) -/

/-- What `Client::build_client` fixes per client and the pool can observe:
the optional egress proxy address (all other configuration is a shared
constant header/timeout set). -/
structure ClientCfg where
  proxy : Option String
  deriving DecidableEq, Repr

/-- `struct Client(AtomicU32, Vec<reqwest::Client>)`: rotation cursor and
ordered client list. -/
structure Pool where
  cursor : Nat
  clients : List ClientCfg
  deriving DecidableEq, Repr

/-- Embedding of `Client::new`: one client per proxy when a proxy list is
provided (`Some`), a single proxy-less client when it is absent (`None`);
the cursor starts at 0.  A provided empty list yields an empty pool. -/
def clientNew (proxies : Option (List String)) : Pool :=
  match proxies with
  | some ps => ⟨0, ps.map (fun p => ⟨some p⟩)⟩
  | none => ⟨0, [⟨none⟩]⟩

/-- The `u32` cursor update of `Client::next`'s CAS loop:
`(old + 1) % len` with the addition performed in `u32`. -/
def nextCursor (len c : Nat) : Nat := ((c + 1) % 4294967296) % len

/-- Embedding of `Client::next` under single-threaded invocation (the CAS
succeeds on the first attempt): a pool of length 1 returns its sole client
without touching the cursor; otherwise the cursor advances to
`nextCursor` and the client at the new index is returned.  On an empty
pool the source panics (`% 0`), modelled as `none`. -/
def clientNext (p : Pool) : Option (Pool × ClientCfg) :=
  if p.clients.length = 1 then
    (p.clients.get? 0).map (fun c => (p, c))
  else if p.clients.length = 0 then
    none
  else
    let nw := nextCursor p.clients.length p.cursor
    (p.clients.get? nw).map (fun c => ({ p with cursor := nw }, c))

/-- The pool state after `k` single-threaded calls to `next`. -/
def poolAfter (p : Pool) : Nat → Option Pool
  | 0 => some p
  | k + 1 => (poolAfter p k).bind fun q => (clientNext q).map Prod.fst

/-- The client returned by call number `k + 1` to `next`. -/
def clientAt (p : Pool) (k : Nat) : Option ClientCfg :=
  (poolAfter p k).bind fun q => (clientNext q).map Prod.snd

/-! ### Concrete inputs used by the claims -/

/-- The spec's worked example:
`result.texts[0]` is an object with `text` `"Hallo"` and two
alternatives `"Hi"` and `"Hey"`. -/
def exampleUpstream : Json :=
  .obj [("result", .obj [("texts", .arr [
    .obj [("text", .str "Hallo"),
          ("alternatives", .arr [.obj [("text", .str "Hi")],
                                 .obj [("text", .str "Hey")]])]])])]

/-- The spec's degenerate example: a `result` object with no `texts`. -/
def exampleResultEmpty : Json := .obj [("result", .obj [])]

/-- A representative serialized payload fragment containing the
`"method":"` pattern exactly once, as `serde_json::to_string` emits it. -/
def sampleBody : String :=
  "\"jsonrpc\":\"2.0\",\"method\":\"LMT_handle_texts\",\"id\":8300000001"

/-- `sampleBody` after the spaces-around-the-colon rewrite. -/
def sampleSpacedResult : String :=
  "\"jsonrpc\":\"2.0\",\"method\" : \"LMT_handle_texts\",\"id\":8300000001"

/-- `sampleBody` after the space-after-the-colon rewrite. -/
def sampleSpaceAfterResult : String :=
  "\"jsonrpc\":\"2.0\",\"method\": \"LMT_handle_texts\",\"id\":8300000001"

/-! ### Helper lemmas -/

/-- With a valid cursor and a pool length that fits in `u32`, the `u32`
wrap in the cursor update is inert: `nextCursor` is plain `(c + 1) % len`. -/
theorem nextCursor_eq (len c : Nat) (h2 : 2 ≤ len) (hw : len < 4294967296)
    (hc : c < len) : nextCursor len c = (c + 1) % len := by
  unfold nextCursor
  have h1 : (c + 1) % 4294967296 = c + 1 := Nat.mod_eq_of_lt (by omega)
  rw [h1]

/-- Folding an outer `% n` into a successor: `(a % n + 1) % n = (a + 1) % n`. -/
theorem mod_succ_mod (n a : Nat) (h : 2 ≤ n) :
    (a % n + 1) % n = (a + 1) % n := by
  conv_rhs => rw [Nat.add_mod]
  rw [Nat.mod_eq_of_lt (show 1 < n by omega)]

/-- `Client::next` on a pool of `≥ 2` clients with a valid cursor advances
the cursor to `(c + 1) % len` and returns the client at that index. -/
theorem clientNext_rot (cs : List ClientCfg) (c : Nat) (h2 : 2 ≤ cs.length)
    (hw : cs.length < 4294967296) (hc : c < cs.length) :
    clientNext ⟨c, cs⟩ =
      (cs.get? ((c + 1) % cs.length)).map
        (fun cl => (⟨(c + 1) % cs.length, cs⟩, cl)) := by
  have h1 : cs.length ≠ 1 := by omega
  have h0 : cs.length ≠ 0 := by omega
  have hnc : nextCursor cs.length c = (c + 1) % cs.length :=
    nextCursor_eq _ _ h2 hw hc
  simp [clientNext, h1, h0, hnc]

/-- Single-threaded iteration of `Client::next`: after `k` calls the
cursor holds `(c + k) % len`. -/
theorem poolAfter_rot (cs : List ClientCfg) (c : Nat) (h2 : 2 ≤ cs.length)
    (hw : cs.length < 4294967296) (hc : c < cs.length) (k : Nat) :
    poolAfter ⟨c, cs⟩ k = some ⟨(c + k) % cs.length, cs⟩ := by
  induction k with
  | zero => simp [poolAfter, Nat.mod_eq_of_lt hc]
  | succ k ih =>
    have hlt : (c + k) % cs.length < cs.length := Nat.mod_lt _ (by omega)
    have hidx : ((c + k) % cs.length + 1) % cs.length < cs.length :=
      Nat.mod_lt _ (by omega)
    rw [poolAfter, ih]
    simp only [Option.some_bind]
    rw [clientNext_rot cs _ h2 hw hlt]
    cases hget : cs.get? (((c + k) % cs.length + 1) % cs.length) with
    | none => exact absurd (List.get?_eq_none.mp hget) (by omega)
    | some cl =>
      simp only [Option.map_some']
      congr 2
      exact mod_succ_mod _ _ h2

/-! ### Claim theorems -/

/-- Claim C1: the claim asserts that on the spec's worked example the
extractor yields `data = "Hallo"` and `alternatives = ["Hi", "Hey"]`.
The code as written calls `as_array()` on `result.texts[0]` itself — an
object here — so the alternatives loop never runs: the extractor yields
`("Hallo", [])`, contradicting the claim's alternatives. -/
theorem c1_extractor_drops_alternatives :
    extract exampleUpstream = ("Hallo", []) ∧
    (extract exampleUpstream).2 ≠ ["Hi", "Hey"] :=
  ⟨rfl, by decide⟩

/-- Claim C2: the claim asserts that with an API key configured, an
absent bearer credential is rejected as unauthorized.  The code's
`if let (Some(auth), Some(api_key))` only rejects a PRESENT mismatching
token: with `auth = None` and a configured key it falls through to
`Ok(())`, so the request proceeds to the upstream call. -/
theorem c2_absent_credential_passes :
    verify_api_key none (some "secret") = .ok () ∧
    verify_api_key none (some "secret") ≠ .error .unauthorized :=
  ⟨rfl, fun h => nomatch h⟩

/-- Claim C3 counterexample: the claim asserts that an empty proxy
sequence yields exactly one proxy-less client; but `Client::new` applied
to a present-but-empty proxy list (`Some(vec![])`) runs the per-proxy
loop zero times and builds an empty pool. -/
theorem c3_counterexample :
    (clientNew (some [])).clients = [] ∧
    (clientNew (some [])).clients.length ≠ 1 :=
  ⟨rfl, by decide⟩

/-- Claim C3 (amended): `Client::new` builds one client per proxy address
of a provided list, and exactly one proxy-less client when the proxy list
is absent (`None`); a provided empty list builds zero clients.  On any
single-client pool — in particular the pool built from `None` — `next()`
returns the sole client and leaves the pool (hence the cursor) unchanged,
so every call returns the same client. -/
theorem c3_pool_construction :
    (clientNew none).clients = [⟨none⟩] ∧
    (∀ ps : List String,
      (clientNew (some ps)).clients = ps.map (fun p => ⟨some p⟩)) ∧
    (clientNew (some [])).clients = [] ∧
    (∀ (c0 : Nat) (cl : ClientCfg),
      clientNext ⟨c0, [cl]⟩ = some (⟨c0, [cl]⟩, cl)) ∧
    clientNext (clientNew none) = some (clientNew none, ⟨none⟩) :=
  ⟨rfl, fun _ => rfl, rfl, fun _ _ => rfl, rfl⟩

/-- Claim C4 counterexample: the claim asserts the random base `r` is
drawn from the INCLUSIVE range `[0, 99999]` with every value possible;
but `gen_range(0..99999)` uses a half-open range, so `99999` is not a
possible draw. -/
theorem c4_counterexample : ¬ possibleDraw 99999 := by
  simp [possibleDraw]

/-- Claim C4 (amended): `r` is drawn from the half-open range
`[0, 99999)`, i.e. `0 ≤ r ≤ 99998`; every generated payload id equals
`(r + 8300000) * 1000 + 1` and therefore satisfies `id % 1000 = 1`. -/
theorem c4_id_arithmetic (r : Nat) :
    (possibleDraw r ↔ r ≤ 99998) ∧
    payloadId r = (r + 8300000) * 1000 + 1 ∧
    payloadId r % 1000 = 1 := by
  refine ⟨by unfold possibleDraw; omega, rfl, ?_⟩
  show (get_random_number r + 1) % 1000 = 1
  unfold get_random_number
  omega

/-- Claim C5: with `i_count` the number of lowercase `i` characters in the
input text, the timestamp is `now_ms` unchanged when `i_count = 0`, and
`now_ms - (now_ms % i_count) + i_count` otherwise; in the latter case
`(timestamp - i_count) % i_count = 0` and `timestamp > now_ms - i_count`. -/
theorem c5_timestamp_skew (text : String) (nowMs : Nat) :
    (get_i_count text = 0 → get_timestamp (get_i_count text) nowMs = nowMs) ∧
    (0 < get_i_count text →
      get_timestamp (get_i_count text) nowMs
          = nowMs - nowMs % get_i_count text + get_i_count text ∧
      (get_timestamp (get_i_count text) nowMs - get_i_count text)
          % get_i_count text = 0 ∧
      nowMs - get_i_count text < get_timestamp (get_i_count text) nowMs) := by
  set ic := get_i_count text with hic
  constructor
  · intro h
    simp [get_timestamp, h]
  · intro h
    have hne : ic ≠ 0 := by omega
    have hts : get_timestamp ic nowMs = nowMs - nowMs % ic + ic := by
      simp [get_timestamp, hne]
    have hfloor : nowMs - nowMs % ic = ic * (nowMs / ic) :=
      Nat.sub_eq_of_eq_add (Nat.div_add_mod nowMs ic).symm
    have hr : nowMs % ic < ic := Nat.mod_lt _ h
    refine ⟨hts, ?_, ?_⟩
    · rw [hts, Nat.add_sub_cancel, hfloor, Nat.mul_mod_right]
    · rw [hts]
      calc nowMs - ic ≤ nowMs - nowMs % ic :=
            Nat.sub_le_sub_left (le_of_lt hr) nowMs
        _ < nowMs - nowMs % ic + ic := Nat.lt_add_of_pos_right h

/-- Claim C5 witness: the input `"drink it in"` has `i_count = 3`; at
`now_ms = 1000` the timestamp is `1000 - 1000 % 3 + 3 = 1002`. -/
theorem c5_timestamp_skew_witness :
    get_timestamp (get_i_count "drink it in") 1000
        = 1000 - 1000 % get_i_count "drink it in" + get_i_count "drink it in" ∧
    (get_timestamp (get_i_count "drink it in") 1000 - get_i_count "drink it in")
        % get_i_count "drink it in" = 0 ∧
    1000 - get_i_count "drink it in"
        < get_timestamp (get_i_count "drink it in") 1000 :=
  (c5_timestamp_skew "drink it in" 1000).2 (by decide)

/-- Claim C6: after serialization, the id condition
`(id + 5) % 29 = 0 ∨ (id + 3) % 13 = 0` selects the spaces-around-the-colon
rewrite of the literal substring of the serialized string, and any other id
selects the space-after-the-colon rewrite, shown on a representative
serialized payload. -/
theorem c6_formatting_variance (id : Nat) :
    ((id + 5) % 29 = 0 ∨ (id + 3) % 13 = 0 →
      formatBody id sampleBody = sampleSpacedResult) ∧
    (¬ ((id + 5) % 29 = 0 ∨ (id + 3) % 13 = 0) →
      formatBody id sampleBody = sampleSpaceAfterResult) := by
  constructor
  · intro h
    rw [formatBody, if_pos h]
    rfl
  · intro h
    rw [formatBody, if_neg h]
    rfl

/-- Claim C6 witness: id 24 satisfies `(24 + 5) % 29 = 0` and gets spaces
around the colon; id 1 satisfies neither divisibility and gets only the
space after the colon. -/
theorem c6_formatting_variance_witness :
    formatBody 24 sampleBody = sampleSpacedResult ∧
    formatBody 1 sampleBody = sampleSpaceAfterResult :=
  ⟨(c6_formatting_variance 24).1 (by decide),
   (c6_formatting_variance 1).2 (by decide)⟩

/-- Claim C8: when the navigation to `result.texts[0]` fails at any step
(absent field, non-array `texts`, empty array — e.g. the spec's
`result` with no `texts`), the extraction yields `data = ""` and
`alternatives = []`; `extract` is a total function, so no error is
raised. -/
theorem c8_defensive_extraction (body : Json) :
    extract exampleResultEmpty = ("", []) ∧
    (textsZero body = none → extract body = ("", [])) := by
  refine ⟨rfl, fun h => ?_⟩
  simp [extract, extractData, extractAlternatives, h]

/-- Claim C8 witness: a `result` of the wrong shape (a number) makes the
navigation fail and the extraction degrade to empty values. -/
theorem c8_defensive_extraction_witness :
    extract (.obj [("result", .num 7)]) = ("", []) :=
  (c8_defensive_extraction (.obj [("result", .num 7)])).2 rfl

/-- Claim C7 counterexample: the claim asserts every non-2xx status other
than 429 yields an internal error; but `error_for_status` only errors on
statuses `400..=599`, so a 302 response (reachable, since redirects are
disabled) with a JSON body is treated like a success: its body is parsed
and returned, not wrapped in an internal error. -/
theorem c7_counterexample :
    classifyUpstream (.response 302 (some .null)) = .ok .null ∧
    classifyUpstream (.response 302 (some .null))
        ≠ .error (.internalStatus 302) :=
  ⟨rfl, fun h => nomatch h⟩

/-- Claim C7 (amended): a transport failure of the POST yields a gateway
(502) error; status 429 yields a rate-limit error without the body ever
being parsed; any status in `400..=599` other than 429 yields an internal
(500) error wrapping the status; any other status (2xx, and also 1xx/3xx,
since `error_for_status` passes them) has its body parsed as JSON, with
parse failure a gateway error; the classification is single-shot — no
failure is retried. -/
theorem c7_classification (s : Nat) (b : Option Json) (j : Json) :
    classifyUpstream .netFail = .error .badGateway ∧
    classifyUpstream (.response 429 b) = .error .tooManyRequests ∧
    (400 ≤ s → s ≤ 599 → s ≠ 429 →
      classifyUpstream (.response s b) = .error (.internalStatus s)) ∧
    (¬ (400 ≤ s ∧ s ≤ 599) →
      classifyUpstream (.response s none) = .error .badGateway ∧
      classifyUpstream (.response s (some j)) = .ok j) := by
  refine ⟨rfl, rfl, fun h1 h2 h3 => ?_, fun h => ?_⟩
  · cases b <;> simp [classifyUpstream, h1, h2, h3]
  · have h429 : s ≠ 429 := by omega
    constructor <;> simp [classifyUpstream, h429, h]

/-- Claim C7 witness: a 500 response is wrapped as an internal error and
a 302 response with a non-JSON body is a gateway error. -/
theorem c7_classification_witness :
    classifyUpstream (.response 500 none) = .error (.internalStatus 500) ∧
    classifyUpstream (.response 302 none) = .error .badGateway :=
  ⟨(c7_classification 500 none .null).2.2.1 (by decide) (by decide) (by decide),
   ((c7_classification 302 none .null).2.2.2 (by decide)).1⟩

/-- Claim C9: for a pool of `n ≥ 2` clients (with `n` a `u32` value) and
a valid cursor `c0 < n`, under single-threaded invocation the pool state
after `k` calls to `next()` holds cursor `(c0 + k) % n` — a valid index —
and call number `k + 1` returns the client at index `(c0 + k + 1) % n`,
so no index is skipped and every returned index lies in `[0, n)`. -/
theorem c9_round_robin (p : Pool) (k : Nat) (h2 : 2 ≤ p.clients.length)
    (hw : p.clients.length < 4294967296) (hc : p.cursor < p.clients.length) :
    poolAfter p k = some ⟨(p.cursor + k) % p.clients.length, p.clients⟩ ∧
    (p.cursor + k) % p.clients.length < p.clients.length ∧
    clientAt p k
        = p.clients.get? ((p.cursor + k + 1) % p.clients.length) := by
  obtain ⟨c, cs⟩ := p
  dsimp only at h2 hw hc ⊢
  have hpa := poolAfter_rot cs c h2 hw hc k
  refine ⟨hpa, Nat.mod_lt _ (by omega), ?_⟩
  rw [clientAt, hpa]
  simp only [Option.some_bind]
  rw [clientNext_rot cs _ h2 hw (Nat.mod_lt _ (by omega))]
  rw [mod_succ_mod _ _ h2]
  cases cs.get? ((c + k + 1) % cs.length) <;> rfl

/-- Claim C9 witness: a three-client pool starting at cursor 0: after 4
calls the cursor is `4 % 3 = 1` and the 5th call returns the client at
index `5 % 3 = 2`. -/
theorem c9_round_robin_witness :
    poolAfter ⟨0, [⟨some "a"⟩, ⟨some "b"⟩, ⟨some "c"⟩]⟩ 4
        = some ⟨(0 + 4) % 3, [⟨some "a"⟩, ⟨some "b"⟩, ⟨some "c"⟩]⟩ ∧
    clientAt ⟨0, [⟨some "a"⟩, ⟨some "b"⟩, ⟨some "c"⟩]⟩ 4
        = [⟨some "a"⟩, ⟨some "b"⟩, ⟨some "c"⟩].get? ((0 + 4 + 1) % 3) := by
  have h := c9_round_robin ⟨0, [⟨some "a"⟩, ⟨some "b"⟩, ⟨some "c"⟩]⟩ 4
    (by decide) (by decide) (by decide)
  exact ⟨h.1, h.2.2⟩

/-- Claim C10: the `%` by `i_count` is evaluated only in the
`i_count ≠ 0` branch (the `i_count = 0` branch returns the clock reading
unchanged); the error branch of `get_timestamp` is taken exactly when the
clock reads before the Unix epoch, and every reading at or after the
epoch yields `Ok`. -/
theorem c10_timestamp_guard (i_count : Nat) (clockMs : Int) :
    (get_timestamp_checked i_count clockMs = .error () ↔ clockMs < 0) ∧
    (0 ≤ clockMs →
      get_timestamp_checked i_count clockMs
          = .ok (get_timestamp i_count clockMs.toNat)) ∧
    (∀ nowMs : Nat, get_timestamp 0 nowMs = nowMs) ∧
    (∀ nowMs : Nat, i_count ≠ 0 →
      get_timestamp i_count nowMs = nowMs - nowMs % i_count + i_count) := by
  refine ⟨?_, fun h => ?_, fun nowMs => by simp [get_timestamp],
    fun nowMs h => by simp [get_timestamp, h]⟩
  · unfold get_timestamp_checked
    split
    · simp [*]
    · constructor
      · intro h
        exact absurd h (fun h2 => nomatch h2)
      · intro h
        omega
  · unfold get_timestamp_checked
    rw [if_neg (by omega)]

/-- Claim C10 witness: at `i_count = 2` and a clock reading of 100 ms the
function returns `Ok` with the skewed value `100 - 100 % 2 + 2`. -/
theorem c10_timestamp_guard_witness :
    get_timestamp_checked 2 100 = .ok (get_timestamp 2 100) ∧
    get_timestamp 2 100 = 100 - 100 % 2 + 2 :=
  ⟨(c10_timestamp_guard 2 100).2.1 (by decide),
   (c10_timestamp_guard 2 100).2.2.2 100 (by decide)⟩

end DeeplServe
